import Mathlib

/-!
Shallow embedding of the instance lifecycle engine of `ciel-rs`
(`src/machine.rs`), together with theorems settling the specification
claims about it.

Conventions of the embedding:
* OS strings and paths are represented by their byte sequences
  (`List Nat`, each element < 256), exactly as Rust's `OsStr::as_bytes`
  exposes them.
* Fallible Rust functions returning `Result` are embedded as `Except`.
* The outside world (filesystem, system bus, child processes, clock) is
  passed in explicitly as environment structures of response functions;
  each embedded operation is a pure function of its environment, and
  observable side effects (sleeps, signals, bus calls) are returned as
  explicit traces.
-/

namespace Ciel

deriving instance DecidableEq for Except

/-- OS-level byte strings (`OsStr` contents, file contents). -/
abbrev Bytes := List Nat

/-- UTF-8 encoding of a single Unicode scalar value. -/
def utf8EncodeChar (n : Nat) : List Nat :=
  if n < 0x80 then [n]
  else if n < 0x800 then [0xC0 + n / 0x40, 0x80 + n % 0x40]
  else if n < 0x10000 then
    [0xE0 + n / 0x1000, 0x80 + (n / 0x40) % 0x40, 0x80 + n % 0x40]
  else
    [0xF0 + n / 0x40000, 0x80 + (n / 0x1000) % 0x40, 0x80 + (n / 0x40) % 0x40,
      0x80 + n % 0x40]

/-- The UTF-8 bytes of a Lean string; used to write concrete byte-level
inputs and outputs readably. -/
def strBytes (s : String) : Bytes :=
  (s.data.map (fun c => utf8EncodeChar c.toNat)).flatten

/-- Is `c` a UTF-8 continuation byte (`0x80 ..= 0xBF`)? -/
def isCont (c : Nat) : Bool := 0x80 ≤ c && c ≤ 0xBF

/-- UTF-8 validity of a byte sequence, following the table in
RFC 3629 (which is what Rust's `str::from_utf8` / `OsStr::to_str`
implement): rejects overlong forms, surrogates and values above
U+10FFFF.  `OsStr::to_str` succeeds exactly on valid sequences. -/
def utf8Valid : Bytes → Bool
  | [] => true
  | c :: rest =>
    if c ≤ 0x7F then utf8Valid rest
    else if c < 0xC2 then false
    else if c ≤ 0xDF then
      match rest with
      | c2 :: r => isCont c2 && utf8Valid r
      | [] => false
    else if c ≤ 0xEF then
      match rest with
      | c2 :: c3 :: r =>
        (if c = 0xE0 then 0xA0 ≤ c2 && c2 ≤ 0xBF
         else if c = 0xED then 0x80 ≤ c2 && c2 ≤ 0x9F
         else isCont c2) && isCont c3 && utf8Valid r
      | _ => false
    else if c ≤ 0xF4 then
      match rest with
      | c2 :: c3 :: c4 :: r =>
        (if c = 0xF0 then 0x90 ≤ c2 && c2 ≤ 0xBF
         else if c = 0xF4 then 0x80 ≤ c2 && c2 ≤ 0x8F
         else isCont c2) && isCont c3 && isCont c4 && utf8Valid r
      | _ => false
    else false

/-- `MOD_ADLER` of the Adler-32 checksum. -/
def MOD_ADLER : Nat := 65521

/-- Adler-32 of a byte sequence, as computed by the `adler32` crate used
at `machine.rs` line 70: state `(a, b)` starts at `(1, 0)`; each byte
updates `a := (a + c) mod 65521`, `b := (b + a) mod 65521`; the checksum
is `b * 2^16 + a`.  (The crate reads from an in-memory byte slice, which
cannot fail, so the embedding is total.) -/
def adler32 (bs : Bytes) : Nat :=
  let st := bs.foldl
    (fun (ab : Nat × Nat) c =>
      ((ab.1 + c) % MOD_ADLER, (ab.2 + (ab.1 + c) % MOD_ADLER) % MOD_ADLER))
    (1, 0)
  st.2 * 65536 + st.1

/-- Rust's `format!("{:x}", n)`: lowercase hexadecimal, no leading
zeros (`"0"` for zero). -/
def toHexLower (n : Nat) : String := String.mk (Nat.toDigits 16 n)

/-- Rust `Path::file_name` on the path's bytes: the last normal
component after splitting at `/`, ignoring empty components and `.`;
`none` when there is no component or the last one is `..`. -/
def rustFileName (p : Bytes) : Option Bytes :=
  let comps := (p.splitOn 0x2F).filter (fun c => c != ([] : Bytes) && c != [0x2E])
  match comps.getLast? with
  | none => none
  | some c => if c = [0x2E, 0x2E] then none else some c

/-- Rust `Path::join`: an absolute right operand replaces the base;
otherwise the right operand is appended with a `/` separator unless the
base is empty or already ends with `/`. -/
def rustJoin (base p : Bytes) : Bytes :=
  if p.head? = some 0x2F then p
  else if base = [] || base.getLast? = some 0x2F then base ++ p
  else base ++ [0x2F] ++ p

/-- Errors surfaced by the embedded fragment of `machine.rs`
(`anyhow` messages in the source, collapsed to their identity). -/
inductive CielError where
  /-- "Invalid container path: …" (`Path::file_name` returned nothing). -/
  | invalidContainerPath
  /-- "Container name is not valid unicode." (`OsStr::to_str` failed). -/
  | containerNameNotUnicode
  /-- An I/O error propagated by the `?` operator (e.g. `fs::read`). -/
  | ioError
  /-- "Unable to parse the process cmdline of PID 1 in the container". -/
  | parseError
deriving DecidableEq, Repr

/-- `new_container_name` (machine.rs lines 67-81): Ciel 3+ namespace
name.  Computes the Adler-32 checksum of the full path bytes, takes the
path's file name as the instance name (failing when there is none),
requires it to be valid Unicode, and formats `<name>-<checksum in
lowercase hex>`. -/
def new_container_name (path : Bytes) : Except CielError Bytes :=
  let hash := adler32 path
  match rustFileName path with
  | none => .error .invalidContainerPath
  | some name =>
    if utf8Valid name then .ok (name ++ strBytes "-" ++ strBytes (toHexLower hash))
    else .error .containerNameNotUnicode

/-- `get_container_ns_name` (machine.rs lines 142-152) for the current
(non-legacy) layout: join the argument onto the current directory and
derive the Ciel 3+ name.  (The legacy branch calls the host's `ftok`
primitive and is outside this embedding.) -/
def get_container_ns_name (current_dir path : Bytes) : Except CielError Bytes :=
  new_container_name (rustJoin current_dir path)

/-- `⌈ln n⌉` as computed by the source expression
`((i + 1) as f32).ln().ceil()` (machine.rs line 116), tabulated for the
argument range the code can reach (`n ≤ retry`, with `retry = 10` at
the only call site; stated up to 20 for headroom).
`ceil_ln_eq_ceil_log` below proves the table equal to `⌈Real.log n⌉` on
`1 ≤ n ≤ 20`, so no floating-point rounding is hidden here: every value
of `ln` involved is far from an integer, well beyond `f32` error. -/
def ceil_ln (n : Nat) : Nat :=
  if n ≤ 1 then 0
  else if n ≤ 2 then 1
  else if n ≤ 7 then 2
  else if n ≤ 20 then 3
  else 4

/-- Environment for one run of the readiness wait: the result of the
non-blocking `child.try_wait()` poll (`.error` = I/O failure, `.ok
(some s)` = child exited with status `s`, `.ok none` = still running)
and of the `try_open_container_bus` probe, at each zero-based attempt
index. -/
structure SpawnEnv where
  try_wait : Nat → Except Unit (Option Int)
  probe : Nat → Bool

/-- Failure modes of `wait_for_container`. -/
inductive WaitError where
  /-- an I/O error from `child.try_wait()`, propagated by `?` -/
  | ioError
  /-- "nspawn exited too early! (Status: …)" -/
  | nspawnExitedEarly (status : Int)
  /-- "Timeout waiting for container …" -/
  | timeout
deriving DecidableEq, Repr

/-- Loop of `wait_for_container` (machine.rs lines 102-120), starting
at attempt index `i` with `fuel` attempts left.  Each attempt polls the
child, then probes the container bus, then sleeps `ceil_ln (i + 1)`
seconds.  Returns the outcome together with the ordered list of sleep
durations performed (in seconds). -/
def wait_go (env : SpawnEnv) : Nat → Nat → Except WaitError Unit × List Nat
  | _, 0 => (.error .timeout, [])
  | i, fuel + 1 =>
    match env.try_wait i with
    | .error _ => (.error .ioError, [])
    | .ok (some status) => (.error (.nspawnExitedEarly status), [])
    | .ok none =>
      if env.probe i then (.ok (), [])
      else
        let r := wait_go env (i + 1) fuel
        (r.1, ceil_ln (i + 1) :: r.2)

/-- `wait_for_container` (machine.rs lines 102-120). -/
def wait_for_container (env : SpawnEnv) (retry : Nat) :
    Except WaitError Unit × List Nat :=
  wait_go env 0 retry

/-- One successful `BindMountMachine` bus call, with the argument
values the source passes (machine.rs lines 129-135). -/
structure BindMountCall where
  ns : String
  source : String
  dest : String
  read_only : Bool
  mkdir : Bool
deriving DecidableEq, Repr

/-- Environment for `setup_bind_mounts`: outcomes of
`fs::create_dir_all`, `fs::canonicalize` (`none` = failure) and of the
`bind_mount_machine(ns, source, dest, …)` bus call. -/
structure MountEnv where
  create_dir_all : String → Bool
  canonicalize : String → Option String
  bind_mount : String → String → String → Bool

/-- `setup_bind_mounts` (machine.rs lines 123-139).  For each requested
`(host_path, container_path)` pair in order: create the host path,
canonicalize it, and issue `bind_mount_machine(ns, source, dest,
read_only := false, mkdir := true)`.  Every step uses the `?` operator,
so the first failure aborts the whole loop.  Returns the overall result
together with the list of successful bind-mount calls performed. -/
def setup_bind_mounts (env : MountEnv) (ns : String) :
    List (String × String) → Except Unit Unit × List BindMountCall
  | [] => (.ok (), [])
  | (host, dest) :: rest =>
    if env.create_dir_all host then
      match env.canonicalize host with
      | some src =>
        if env.bind_mount ns src dest then
          let r := setup_bind_mounts env ns rest
          (r.1, ⟨ns, src, dest, false, true⟩ :: r.2)
        else (.error (), [])
      | none => (.error (), [])
    else (.error (), [])

/-- Observable actions of `spawn_container`, for stating what the
function does and does not do. -/
inductive Action where
  /-- the `systemd-nspawn` child is spawned -/
  | spawnNspawn (ns : String)
  /-- a sleep of the given number of seconds inside the readiness wait -/
  | sleep (secs : Nat)
  /-- a successful bind-mount bus call -/
  | bindMount (c : BindMountCall)
  /-- the warning logged when bind-mount setup failed -/
  | warnMounts
  /-- a signal sent to the spawned `systemd-nspawn` child process.
      No statement of `spawn_container` emits this action: the source
      has no code path that kills or signals the child, it only ever
      polls it with `try_wait` (and on a readiness failure the `?` at
      machine.rs line 175 returns with the child untouched). -/
  | signalChild
deriving DecidableEq, Repr

/-- `spawn_container` (machine.rs lines 155-182) from the point after
the `systemd-nspawn` child is spawned: wait for readiness with
`retry = 10`, propagating its error with `?`; then set up bind mounts,
downgrading their failure to a warning (lines 177-179).  Returns the
result and the trace of observable actions. -/
def spawn_container (senv : SpawnEnv) (menv : MountEnv) (ns : String)
    (mounts : List (String × String)) : Except WaitError Unit × List Action :=
  let w := wait_for_container senv 10
  match w.1 with
  | .error e => (.error e, Action.spawnNspawn ns :: w.2.map Action.sleep)
  | .ok () =>
    let m := setup_bind_mounts menv ns mounts
    (.ok (), Action.spawnNspawn ns :: w.2.map Action.sleep
      ++ m.2.map Action.bindMount
      ++ (match m.1 with | .ok _ => [] | .error _ => [Action.warnMounts]))

/-- `is_booted` (machine.rs lines 247-265), as a function of the
contents of `/proc/<leader_pid>/cmdline` (`none` when `fs::read`
failed, e.g. because the process file is absent).  Note that the `?` on
`fs::read` at line 250 propagates the read failure as an error; the
bytes up to the first NUL are then taken as a path whose file name is
compared against `"systemd"` and `"init"` (a path with no file name
yields `false`). -/
def is_booted (cmdline : Option Bytes) : Except CielError Bool :=
  match cmdline with
  | none => .error .ioError
  | some f =>
    match f.findIdx? (· == 0) with
    | none => .error .parseError
    | some pos =>
      match rustFileName (f.take pos) with
      | some exe => .ok (exe == strBytes "systemd" || exe == strBytes "init")
      | none => .ok false

/-- zbus errors crossing the machine-bus boundary: a D-Bus method error
with its error name, or any other kind of bus error. -/
inductive ZbusError where
  | methodError (errName : String)
  | other (msg : String)
deriving DecidableEq, Repr

/-- Failure modes of `inspect_instance`. -/
inductive InspectError where
  | ioError
  | bus (e : ZbusError)
  | ciel (e : CielError)
deriving DecidableEq, Repr

/-- Environment of one `inspect_instance` call: result of the overlay
mount-table check, of `Manager.GetMachine` (`.ok` carries the object
path), of `Machine.State`, and the `/proc/<leader>/cmdline` contents
consumed by `is_booted`. -/
structure InspectEnv where
  is_mounted : Except Unit Bool
  get_machine : Except ZbusError String
  state : Except ZbusError String
  cmdline : Option Bytes

/-- Instance status record (`CielInstance`, machine.rs lines 30-39),
string fields carried as UTF-8 bytes like every other OS string in this
embedding. -/
structure CielInstance where
  name : Bytes
  ns_name : Bytes
  mounted : Bool
  running : Bool
  started : Bool
  booted : Option Bool
deriving DecidableEq, Repr

/-- `inspect_instance` (machine.rs lines 314-351): read the mount
table; ask the manager for the machine object; a `MethodError` named
`org.freedesktop.machine1.NoSuchMachine` yields the not-started record,
any other error propagates; otherwise read the state string ("running"
and "degraded" both count as running), determine bootedness, and return
the started record. -/
def inspect_instance (env : InspectEnv) (name ns_name : Bytes) :
    Except InspectError CielInstance :=
  match env.is_mounted with
  | .error _ => .error .ioError
  | .ok mounted =>
    match env.get_machine with
    | .error e =>
      if e = .methodError "org.freedesktop.machine1.NoSuchMachine" then
        .ok ⟨name, ns_name, mounted, false, false, none⟩
      else .error (.bus e)
    | .ok _path =>
      match env.state with
      | .error e => .error (.bus e)
      | .ok state =>
        let running := state == "running" || state == "degraded"
        match is_booted env.cmdline with
        | .error e => .error (.ciel e)
        | .ok booted => .ok ⟨name, ns_name, mounted, running, true, some booted⟩

/-- Environment of one `terminate_container` run: whether the
`poweroff` transient unit could be issued with exit code 0
(`execute_poweroff`, machine.rs lines 216-230), whether the machine
object still exists at each one-second poll instant, and whether the
`Kill` and `Terminate` bus calls inside `kill_container` succeed. -/
structure StopEnv where
  poweroff_ok : Bool
  machine_present : Nat → Bool
  kill_ok : Bool
  terminate_ok : Bool

/-- Bus/command actions of the termination protocol. -/
inductive StopAction where
  /-- the non-blocking in-container `poweroff` command is issued -/
  | poweroffCmd
  /-- `Machine.Kill("all", signal)` -/
  | kill (signal : Int)
  /-- `Machine.Terminate()` -/
  | terminate
deriving DecidableEq, Repr

/-- Failure modes of `terminate_container`. -/
inductive StopError where
  /-- the `Kill` bus call failed (propagated by `?` in `kill_container`) -/
  | killFailed
  /-- the first `Terminate` bus call failed (propagated by `?`) -/
  | terminateFailed
  /-- "Failed to kill the container! …" (fatal) -/
  | terminationFailed
deriving DecidableEq, Repr

/-- `libc::SIGKILL`. -/
def SIGKILL : Int := 9

/-- Loop of `wait_for_poweroff` (machine.rs lines 236-242): up to
`fuel` polls of `Manager.GetMachine`, starting at time `t` seconds;
each iteration polls, then sleeps one second.  Returns whether the
machine disappeared, and the time reached. -/
def poweroff_poll (present : Nat → Bool) : Nat → Nat → Bool × Nat
  | 0, t => (false, t)
  | fuel + 1, t =>
    if present t then poweroff_poll present fuel (t + 1) else (true, t)

/-- `wait_for_poweroff` (machine.rs lines 232-245): ten one-second
polls for disappearance of the machine object. -/
def wait_for_poweroff (present : Nat → Bool) (t0 : Nat) : Bool × Nat :=
  poweroff_poll present 10 t0

/-- `terminate_container` (machine.rs lines 267-290): issue `poweroff`
inside the container; if it was issued, poll for disappearance
(`wait_for_poweroff`); when the machine is gone, return success.  When
the machine is still present, or when `poweroff` could not be issued,
run `kill_container` (lines 209-214: `Kill("all", SIGKILL)` then
`Terminate`, both propagating failures with `?`), call `Terminate` once
more ignoring its result (line 283), re-poll, and only when the machine
still exists fail with the fatal termination error.  Returns the result
and the trace of bus/command actions (polls and sleeps are not traced;
their number and timing are fixed by `wait_for_poweroff`). -/
def terminate_container (env : StopEnv) : Except StopError Unit × List StopAction :=
  let graceful : Option Nat :=
    if env.poweroff_ok then
      let w := wait_for_poweroff env.machine_present 0
      if w.1 then none else some w.2
    else some 0
  match graceful with
  | none => (.ok (), [.poweroffCmd])
  | some t1 =>
    if env.kill_ok then
      if env.terminate_ok then
        let w2 := wait_for_poweroff env.machine_present t1
        if w2.1 then
          (.ok (), [.poweroffCmd, .kill SIGKILL, .terminate, .terminate])
        else
          (.error .terminationFailed,
            [.poweroffCmd, .kill SIGKILL, .terminate, .terminate])
      else (.error .terminateFailed, [.poweroffCmd, .kill SIGKILL, .terminate])
    else (.error .killFailed, [.poweroffCmd, .kill SIGKILL])

/-- `execute_container_command` (machine.rs lines 185-201), as a
function of whether `CIEL_STAGE2` is set in the host environment
(`std::env::var("CIEL_STAGE2").is_ok()`), of whether the `systemd-run`
child could be spawned and awaited, and of the `ExitStatus::code()` the
wait produced (`none` when the command was killed by a signal, so that
`unwrap_or(127)` yields 127).  Returns the full argv of the
`systemd-run` invocation together with the function result. -/
def execute_container_command (stage2 : Bool) (ns : String)
    (args : List String) (spawn_ok : Bool) (wait_code : Option Int) :
    List String × Except Unit Int :=
  let extra := ["--setenv=HOME=/root"]
    ++ (if stage2 then ["--setenv=ABSTAGE2=1"] else [])
  ("systemd-run" :: extra ++ ["-M", ns, "-qt", "--"] ++ args,
    if spawn_ok then .ok (wait_code.getD 127) else .error ())

/-- One `Ok` entry yielded by `fs::read_dir` over the instance
directory (entries whose read itself errored are dropped by the
source's `.flatten()` and never reach the loop body).  `file_type` is
the result of `DirEntry::file_type()` mapped through `is_dir`. -/
structure DirEntry where
  name : Bytes
  file_type : Except Unit Bool

/-- Failure modes of `list_instances`. -/
inductive ListError where
  | ioError
  | ciel (e : CielError)
  | inspect (e : InspectError)
deriving DecidableEq, Repr

/-- `list_instances` (machine.rs lines 354-367) for a current-layout
workspace: walk the flattened entries in order; skip non-directories; a
`file_type()` error propagates via `?`; for each directory derive the
namespace name (propagating failure with `?`) and inspect it
(propagating failure with `?`).  `envOf` gives the bus/filesystem
environment the inspection of each entry observes.  The source passes
`entry.file_name().to_string_lossy()` as the display name; that map is
the identity on every name reaching `inspect_instance`, because an
invalid-Unicode name already aborts namespace derivation, so the raw
name bytes are passed through here. -/
def list_instances (cwd : Bytes) (envOf : Bytes → InspectEnv) :
    List DirEntry → Except ListError (List CielInstance)
  | [] => .ok []
  | e :: rest =>
    match e.file_type with
    | .error _ => .error .ioError
    | .ok false => list_instances cwd envOf rest
    | .ok true =>
      match get_container_ns_name cwd e.name with
      | .error ce => .error (.ciel ce)
      | .ok ns =>
        match inspect_instance (envOf e.name) e.name ns with
        | .error ie => .error (.inspect ie)
        | .ok inst =>
          match list_instances cwd envOf rest with
          | .error err => .error err
          | .ok l => .ok (inst :: l)

/-- Is an `Except` an error?  Used to state all-or-nothing facts
without naming the error value. -/
def isErr {ε α : Type} : Except ε α → Bool
  | .error _ => true
  | .ok _ => false

/-- Attempt `j` of the readiness wait makes no progress: the child
still runs and the bus probe fails. -/
def cleanAt (env : SpawnEnv) (j : Nat) : Prop :=
  env.try_wait j = .ok none ∧ env.probe j = false

/-- Directory entry `e` is a subdirectory whose processing inside
`list_instances` fails: deriving its namespace name fails, or the name
is derived and inspecting the instance fails. -/
def entry_fails (cwd : Bytes) (envOf : Bytes → InspectEnv) (e : DirEntry) : Prop :=
  e.file_type = .ok true ∧
    match get_container_ns_name cwd e.name with
    | .error _ => True
    | .ok ns => isErr (inspect_instance (envOf e.name) e.name ns) = true

/-- A requested mount on which `setup_bind_mounts` succeeds end to end
in environment `env`. -/
def mount_ok (env : MountEnv) (ns : String) (m : String × String) : Prop :=
  env.create_dir_all m.1 = true ∧
    ∃ src, env.canonicalize m.1 = some src ∧ env.bind_mount ns src m.2 = true

/-- The bind-mount call `setup_bind_mounts` issues for a requested
mount whose source canonicalizes to `src`. -/
def expected_call (env : MountEnv) (ns : String) (m : String × String) : BindMountCall :=
  ⟨ns, (env.canonicalize m.1).getD m.1, m.2, false, true⟩

section Theorems

/-- The sleep-duration table `ceil_ln` agrees with the mathematical
`⌈ln n⌉` on the whole range the source can reach, so the embedding of
`((i + 1) as f32).ln().ceil()` introduces no rounding artifact. -/
theorem ceil_ln_eq_ceil_log (n : Nat) (h1 : 1 ≤ n) (h2 : n ≤ 20) :
    (ceil_ln n : ℤ) = ⌈Real.log n⌉ := by
  have ea : (2.7182818283 : ℝ) < Real.exp 1 := Real.exp_one_gt_d9
  have eb : Real.exp 1 < 2.7182818286 := Real.exp_one_lt_d9
  have epos : (0 : ℝ) < Real.exp 1 := Real.exp_pos 1
  have e2lo : (7.38905 : ℝ) < Real.exp 1 * Real.exp 1 := by nlinarith
  have e2hi : Real.exp 1 * Real.exp 1 < 7.38906 := by nlinarith
  have e3lo : (20.085 : ℝ) < Real.exp 1 * (Real.exp 1 * Real.exp 1) := by nlinarith
  have exp2 : Real.exp 2 = Real.exp 1 * Real.exp 1 := by
    rw [← Real.exp_add]; norm_num
  have exp3 : Real.exp 3 = Real.exp 1 * (Real.exp 1 * Real.exp 1) := by
    rw [show (3 : ℝ) = 1 + (1 + 1) by norm_num, Real.exp_add, Real.exp_add]
  rcases (by omega : n = 1 ∨ n = 2 ∨ (3 ≤ n ∧ n ≤ 7) ∨ (8 ≤ n ∧ n ≤ 20)) with
    h | h | ⟨ha, hb⟩ | ⟨ha, hb⟩
  · subst h; simp [ceil_ln, Real.log_one]
  · subst h
    have hc : ceil_ln 2 = 1 := rfl
    rw [hc, eq_comm, Int.ceil_eq_iff]
    refine ⟨by push_cast; simpa using Real.log_pos (by norm_num), ?_⟩
    rw [Real.log_le_iff_le_exp (by norm_num)]
    push_cast
    linarith
  · have hc : ceil_ln n = 2 := by interval_cases n <;> rfl
    have hn : (0 : ℝ) < (n : ℝ) := by positivity
    have hcast : (3 : ℝ) ≤ (n : ℝ) ∧ (n : ℝ) ≤ 7 := by
      constructor <;> exact_mod_cast (by omega : _)
    rw [hc, eq_comm, Int.ceil_eq_iff]
    constructor
    · push_cast
      rw [show (2 : ℝ) - 1 = 1 by norm_num, Real.lt_log_iff_exp_lt hn]
      linarith [hcast.1]
    · rw [Real.log_le_iff_le_exp hn]
      push_cast
      rw [exp2]
      linarith [hcast.2]
  · have hc : ceil_ln n = 3 := by interval_cases n <;> rfl
    have hn : (0 : ℝ) < (n : ℝ) := by positivity
    have hcast : (8 : ℝ) ≤ (n : ℝ) ∧ (n : ℝ) ≤ 20 := by
      constructor <;> exact_mod_cast (by omega : _)
    rw [hc, eq_comm, Int.ceil_eq_iff]
    constructor
    · push_cast
      rw [show (3 : ℝ) - 1 = 2 by norm_num, Real.lt_log_iff_exp_lt hn]
      rw [exp2]
      linarith [hcast.1]
    · rw [Real.log_le_iff_le_exp hn]
      push_cast
      rw [exp3]
      linarith [hcast.2]

/-- Unfolding one clean attempt of the readiness wait. -/
theorem wait_go_clean_step (env : SpawnEnv) (i fuel : Nat) (h : cleanAt env i) :
    wait_go env i (fuel + 1)
      = ((wait_go env (i + 1) fuel).1,
          ceil_ln (i + 1) :: (wait_go env (i + 1) fuel).2) := by
  simp [wait_go, h.1, h.2]

/-- When every attempt is clean, the wait times out after sleeping
`ceil_ln (i + 1 + k)` seconds at each attempt `k`. -/
theorem wait_go_all_clean (env : SpawnEnv) :
    ∀ fuel i, (∀ j, j < fuel → cleanAt env (i + j)) →
      wait_go env i fuel
        = (.error .timeout, (List.range fuel).map (fun k => ceil_ln (i + 1 + k)))
  | 0, i, _ => by simp [wait_go]
  | fuel + 1, i, h => by
    have h0 : cleanAt env i := by simpa using h 0 (by omega)
    rw [wait_go_clean_step env i fuel h0,
      wait_go_all_clean env fuel (i + 1) (fun j hj => by
        have hx := h (j + 1) (by omega)
        rwa [(by omega : i + (j + 1) = i + 1 + j)] at hx)]
    rw [List.range_succ_eq_map, List.map_cons, List.map_map]
    refine congrArg (Prod.mk _) (congrArg₂ List.cons (by norm_num) ?_)
    exact List.map_congr_left (fun k _ => by
      simp only [Function.comp_apply]
      exact congrArg ceil_ln (by omega))

/-- Skipping a clean prefix of attempts leaves the outcome unchanged. -/
theorem wait_go_skip_clean (env : SpawnEnv) :
    ∀ t i fuel, (∀ j, j < t → cleanAt env (i + j)) → t ≤ fuel →
      (wait_go env i fuel).1 = (wait_go env (i + t) (fuel - t)).1
  | 0, i, fuel, _, _ => by simp
  | t + 1, i, fuel, h, hle => by
    obtain ⟨f, rfl⟩ : ∃ f, fuel = f + 1 := ⟨fuel - 1, by omega⟩
    have h0 : cleanAt env i := by simpa using h 0 (by omega)
    rw [wait_go_clean_step env i f h0]
    have hrec := wait_go_skip_clean env t (i + 1) f (fun j hj => by
      have hx := h (j + 1) (by omega)
      rwa [(by omega : i + (j + 1) = i + 1 + j)] at hx) (by omega)
    rw [(by omega : i + (t + 1) = i + 1 + t), (by omega : f + 1 - (t + 1) = f - t)]
    exact hrec

/-- C2: the readiness wait runs at most 10 attempts; each attempt first
polls the child non-blockingly and aborts with the nspawn-exited-early
error (carrying the exit status) if it exited, then probes the
container bus and succeeds if the probe succeeds, and otherwise sleeps
`⌈ln (i + 1)⌉` seconds for zero-based attempt index `i`, giving the
delay sequence 0, 1, 2, 2, 2, 2, 2, 3, 3, 3 (total 20 seconds); after
all 10 attempts fail it returns the readiness-timeout error.  The last
conjunct certifies that the sleep table used by the embedding is the
mathematical `⌈ln⌉` on the relevant range. -/
theorem C2_readiness_wait_protocol :
    (∀ env : SpawnEnv, (∀ i, i < 10 → cleanAt env i) →
        wait_for_container env 10 = (.error .timeout, [0, 1, 2, 2, 2, 2, 2, 3, 3, 3])
          ∧ ([0, 1, 2, 2, 2, 2, 2, 3, 3, 3] : List Nat).sum = 20)
  ∧ (∀ (env : SpawnEnv) (i : Nat) (status : Int), i < 10 →
        (∀ j, j < i → cleanAt env j) → env.try_wait i = .ok (some status) →
        (wait_for_container env 10).1 = .error (.nspawnExitedEarly status))
  ∧ (∀ (env : SpawnEnv) (i : Nat), i < 10 →
        (∀ j, j < i → cleanAt env j) → env.try_wait i = .ok none →
        env.probe i = true →
        (wait_for_container env 10).1 = .ok ())
  ∧ (∀ i, i < 10 → (ceil_ln (i + 1) : ℤ) = ⌈Real.log ((i + 1 : Nat) : ℝ)⌉) := by
  refine ⟨?_, ?_, ?_, ?_⟩
  · intro env h
    have hall := wait_go_all_clean env 10 0 (fun j hj => by simpa using h j hj)
    refine ⟨?_, by decide⟩
    rw [wait_for_container, hall]
    decide
  · intro env i status hi hclean hexit
    rw [wait_for_container, wait_go_skip_clean env i 0 10
      (fun j hj => by simpa using hclean j hj) (by omega)]
    obtain ⟨m, hm⟩ : ∃ m, 10 - i = m + 1 := ⟨10 - i - 1, by omega⟩
    rw [(by omega : (0 : Nat) + i = i), hm]
    simp [wait_go, hexit]
  · intro env i hi hclean hrun hprobe
    rw [wait_for_container, wait_go_skip_clean env i 0 10
      (fun j hj => by simpa using hclean j hj) (by omega)]
    obtain ⟨m, hm⟩ : ∃ m, 10 - i = m + 1 := ⟨10 - i - 1, by omega⟩
    rw [(by omega : (0 : Nat) + i = i), hm]
    simp [wait_go, hrun, hprobe]
  · intro i hi
    exact ceil_ln_eq_ceil_log (i + 1) (by omega) (by omega)

/-- Witness for C2: an environment whose probe always fails and whose
child never exits times out with the claimed delay sequence. -/
theorem C2_witness :
    wait_for_container ⟨fun _ => .ok none, fun _ => false⟩ 10
        = (.error .timeout, [0, 1, 2, 2, 2, 2, 2, 3, 3, 3])
      ∧ ([0, 1, 2, 2, 2, 2, 2, 3, 3, 3] : List Nat).sum = 20 :=
  C2_readiness_wait_protocol.1 ⟨fun _ => .ok none, fun _ => false⟩
    (fun _ _ => ⟨rfl, rfl⟩)

/-- C1 counterexample: the claim's concrete example is false on the
code.  The Adler-32 checksum of the four bytes `/tmp` is `0x3660181`,
so `new_container_name` maps the path `/tmp` to `tmp-3660181`, not to
the claimed `tmp-51601b0`; and under the two-argument reading (the
workspace directory `/tmp` as current directory, joined with the
instance name `tmp`, as `get_container_ns_name` does) the hash covers
`/tmp/tmp` and the result is `tmp-ccc0301`.  The value `51601b0` is the
Adler-32 of the five bytes `/tmp/` — the path the repository's own test
passes, with its trailing slash. -/
theorem C1_counterexample :
    new_container_name (strBytes "/tmp") = .ok (strBytes "tmp-3660181")
      ∧ strBytes "tmp-3660181" ≠ strBytes "tmp-51601b0"
      ∧ get_container_ns_name (strBytes "/tmp") (strBytes "tmp")
          = .ok (strBytes "tmp-ccc0301")
      ∧ toHexLower (adler32 (strBytes "/tmp")) = "3660181"
      ∧ toHexLower (adler32 (strBytes "/tmp/")) = "51601b0" :=
  ⟨by decide, by decide, by decide, by decide, by decide⟩

/-- C1 (amended): `new_container_name` is a pure function of the path
bytes (deterministic and side-effect-free by construction of the
embedding); it returns `<instance_name>-<h>` where the instance name is
the path's file name and `h` is the Adler-32 checksum of the UTF-8
bytes of the full path exactly as given, in lowercase hexadecimal with
no leading zeros.  For the path `/tmp/` — trailing slash included, as
in the repository's test — with derived instance name `tmp`, the result
is `tmp-51601b0`. -/
theorem C1_names_follow_adler32 :
    (∀ path name, rustFileName path = some name → utf8Valid name = true →
        new_container_name path
          = .ok (name ++ strBytes "-" ++ strBytes (toHexLower (adler32 path))))
  ∧ new_container_name (strBytes "/tmp/") = .ok (strBytes "tmp-51601b0") := by
  constructor
  · intro path name hfn hval
    simp [new_container_name, hfn, hval]
  · decide

/-- Witness for C1: the amended statement applied to the test path. -/
theorem C1_witness :
    new_container_name (strBytes "/tmp/")
      = .ok (strBytes "tmp" ++ strBytes "-"
          ++ strBytes (toHexLower (adler32 (strBytes "/tmp/")))) :=
  C1_names_follow_adler32.1 (strBytes "/tmp/") (strBytes "tmp")
    (by decide) (by decide)

/-- When every requested mount succeeds, `setup_bind_mounts` succeeds
and issues exactly one bind-mount call per requested mount, in order,
each with `read_only = false` and `mkdir = true`. -/
theorem setup_bind_mounts_all_ok (env : MountEnv) (ns : String) :
    ∀ mounts, (∀ m ∈ mounts, mount_ok env ns m) →
      setup_bind_mounts env ns mounts = (.ok (), mounts.map (expected_call env ns))
  | [], _ => rfl
  | (host, dest) :: rest, h => by
    obtain ⟨hc, src, hcanon, hbind⟩ := h (host, dest) (by simp)
    simp only [setup_bind_mounts, hc, if_true, hcanon, hbind]
    rw [setup_bind_mounts_all_ok env ns rest (fun m hm => h m (by simp [hm]))]
    simp [expected_call, hcanon]

/-- The first failing mount aborts the loop: exactly the requested
mounts strictly before it are installed. -/
theorem setup_bind_mounts_prefix_fail (env : MountEnv) (ns : String)
    (bad : String × String) (hbad : ¬ mount_ok env ns bad) :
    ∀ pre post, (∀ m ∈ pre, mount_ok env ns m) →
      setup_bind_mounts env ns (pre ++ bad :: post)
        = (.error (), pre.map (expected_call env ns))
  | [], post, _ => by
    obtain ⟨bh, bd⟩ := bad
    by_cases hc : env.create_dir_all bh = true
    · cases hcanon : env.canonicalize bh with
      | none => simp [setup_bind_mounts, hc, hcanon]
      | some src =>
        by_cases hbind : env.bind_mount ns src bd = true
        · exact absurd ⟨hc, src, hcanon, hbind⟩ hbad
        · simp [setup_bind_mounts, hc, hcanon, hbind]
    · simp [setup_bind_mounts, hc]
  | (host, dest) :: pre, post, h => by
    obtain ⟨hc, src, hcanon, hbind⟩ := h (host, dest) (by simp)
    simp only [List.cons_append, setup_bind_mounts, hc, if_true, hcanon, hbind,
      List.append_eq]
    rw [setup_bind_mounts_prefix_fail env ns bad hbad pre post
      (fun m hm => h m (by simp [hm]))]
    simp [expected_call, hcanon]

/-- C3 counterexample: one mount whose source cannot be canonicalized
(`"bad"`), listed before a perfectly valid mount (`"good"`).  `start`
still succeeds and warns — but the valid mount is NOT installed: the
`?` at machine.rs line 128 aborts the whole loop, so no bind-mount call
at all reaches the container. -/
theorem C3_counterexample :
    setup_bind_mounts
        ⟨fun _ => true, fun h => if h = "bad" then none else some h,
          fun _ _ _ => true⟩
        "ciel" [("bad", "/b"), ("good", "/g")]
      = (.error (), [])
    ∧ spawn_container ⟨fun _ => .ok none, fun i => i == 0⟩
        ⟨fun _ => true, fun h => if h = "bad" then none else some h,
          fun _ _ _ => true⟩
        "ciel" [("bad", "/b"), ("good", "/g")]
      = (.ok (), [Action.spawnNspawn "ciel", Action.warnMounts]) :=
  ⟨by decide, by decide⟩

/-- C3 (amended): for every requested pair the host path is created if
missing, canonicalized, and bind-mounted with `read_only = false` and
`mkdir_if_missing = true`; a mount-setup failure is non-fatal (`start`
still returns success and emits the warning).  However, mount setup
aborts at the first failing mount: the mounts listed before it are
installed and the failing one together with every later mount —
valid or not — is skipped. -/
theorem C3_bind_mounts_best_effort :
    (∀ senv menv ns mounts, (wait_for_container senv 10).1 = .ok () →
        (spawn_container senv menv ns mounts).1 = .ok ()
          ∧ (Action.warnMounts ∈ (spawn_container senv menv ns mounts).2
              ↔ isErr (setup_bind_mounts menv ns mounts).1 = true))
  ∧ (∀ menv ns mounts, (∀ m ∈ mounts, mount_ok menv ns m) →
        setup_bind_mounts menv ns mounts = (.ok (), mounts.map (expected_call menv ns)))
  ∧ (∀ menv ns bad pre post, ¬ mount_ok menv ns bad →
        (∀ m ∈ pre, mount_ok menv ns m) →
        setup_bind_mounts menv ns (pre ++ bad :: post)
          = (.error (), pre.map (expected_call menv ns))) := by
  refine ⟨?_, setup_bind_mounts_all_ok, fun menv ns bad pre post hbad h =>
    setup_bind_mounts_prefix_fail menv ns bad hbad pre post h⟩
  intro senv menv ns mounts hw
  simp only [spawn_container, hw]
  rcases hm : (setup_bind_mounts menv ns mounts).1 with e | u
  · simp [hm, isErr]
  · simp [hm, isErr]

/-- Witness for C3: both valid mounts of a two-mount request are
installed, in order, with `read_only = false` and `mkdir = true`. -/
theorem C3_witness :
    setup_bind_mounts ⟨fun _ => true, fun h => some h, fun _ _ _ => true⟩ "ciel"
        [("a", "/a"), ("b", "/b")]
      = (.ok (), [⟨"ciel", "a", "/a", false, true⟩, ⟨"ciel", "b", "/b", false, true⟩]) := by
  have h := C3_bind_mounts_best_effort.2.1
    ⟨fun _ => true, fun h => some h, fun _ _ _ => true⟩ "ciel"
    [("a", "/a"), ("b", "/b")]
    (fun m _ => ⟨rfl, m.1, rfl, rfl⟩)
  simpa [expected_call] using h

/-- C4 counterexample: with a bus probe that always fails,
`spawn_container` returns the readiness-timeout error after the full
delay sequence, and its action trace contains no signal to the spawned
child: the child is left running unmanaged, contradicting the claim
that it has been signaled. -/
theorem C4_counterexample :
    spawn_container ⟨fun _ => .ok none, fun _ => false⟩
        ⟨fun _ => true, fun h => some h, fun _ _ _ => true⟩ "ciel" []
      = (.error .timeout,
          Action.spawnNspawn "ciel"
            :: ([0, 1, 2, 2, 2, 2, 2, 3, 3, 3] : List Nat).map Action.sleep)
    ∧ Action.signalChild ∉
        (spawn_container ⟨fun _ => .ok none, fun _ => false⟩
          ⟨fun _ => true, fun h => some h, fun _ _ _ => true⟩ "ciel" []).2 :=
  ⟨by decide, by decide⟩

/-- C4 (amended): when the readiness wait exhausts its attempts,
`start` fails with the readiness-timeout error — and the spawned child
process is never signaled, on this or any other path of
`spawn_container`: the `?` at machine.rs line 175 merely propagates the
error, leaving the child running unmanaged. -/
theorem C4_child_never_signaled :
    (∀ senv menv ns mounts, (wait_for_container senv 10).1 = .error .timeout →
        (spawn_container senv menv ns mounts).1 = .error .timeout)
  ∧ (∀ senv menv ns mounts,
        Action.signalChild ∉ (spawn_container senv menv ns mounts).2) := by
  constructor
  · intro senv menv ns mounts hw
    simp [spawn_container, hw]
  · intro senv menv ns mounts
    simp only [spawn_container]
    rcases hw : (wait_for_container senv 10).1 with e | u
    · simp
    · rcases hm : (setup_bind_mounts menv ns mounts).1 with e | u <;> simp

/-- Witness for C4: the always-failing-probe environment reaches the
readiness-timeout outcome through the amended statement. -/
theorem C4_witness :
    (spawn_container ⟨fun _ => .ok none, fun _ => false⟩
        ⟨fun _ => true, fun h => some h, fun _ _ _ => true⟩ "x" []).1
      = .error .timeout :=
  C4_child_never_signaled.1 ⟨fun _ => .ok none, fun _ => false⟩
    ⟨fun _ => true, fun h => some h, fun _ _ _ => true⟩ "x" [] (by decide)

/-- C5 counterexample: when the process file is absent (`fs::read`
fails), `is_booted` returns an error — the `?` at machine.rs line 250
propagates the read failure — not the claimed not-booted result. -/
theorem C5_counterexample :
    is_booted none = .error .ioError ∧ is_booted none ≠ .ok false :=
  ⟨by decide, by decide⟩

/-- C5 (amended): boot detection reports booted exactly when the
basename of the executable in the prefix of the process-1 command line
up to the first NUL byte is exactly `"systemd"` or exactly `"init"` (a
prefix with no file name yields not-booted; a command line without any
NUL yields a parse error).  However, absence of the process file yields
a propagated error, NOT a not-booted result. -/
theorem C5_boot_detection :
    (∀ (f : Bytes) (pos : Nat), f.findIdx? (· == 0) = some pos →
        is_booted (some f)
          = .ok (rustFileName (f.take pos) == some (strBytes "systemd")
              || rustFileName (f.take pos) == some (strBytes "init")))
  ∧ (∀ f : Bytes, f.findIdx? (· == 0) = none →
        is_booted (some f) = .error .parseError)
  ∧ is_booted none = .error .ioError := by
  refine ⟨?_, ?_, rfl⟩
  · intro f pos hpos
    rcases hfn : rustFileName (f.take pos) with _ | exe <;>
      simp [is_booted, hpos, hfn]
  · intro f hnone
    simp [is_booted, hnone]

/-- Witness for C5: a systemd command line with arguments after the NUL
is reported booted. -/
theorem C5_witness :
    is_booted (some (strBytes "/usr/lib/systemd/systemd" ++ [0]
        ++ strBytes "--switched-root"))
      = .ok (rustFileName ((strBytes "/usr/lib/systemd/systemd" ++ [0]
            ++ strBytes "--switched-root").take 24) == some (strBytes "systemd")
          || rustFileName ((strBytes "/usr/lib/systemd/systemd" ++ [0]
            ++ strBytes "--switched-root").take 24) == some (strBytes "init")) :=
  C5_boot_detection.1
    (strBytes "/usr/lib/systemd/systemd" ++ [0] ++ strBytes "--switched-root")
    24 (by decide)

/-- C6: `inspect_instance` maps the host's NoSuchMachine method error
to a record with `started = false`, `running = false`, `booted = none`
and `mounted` still reported from the mount table; it propagates every
other bus error; and when the machine object exists, `started = true`
and `running` is true exactly when the machine state string is
`"running"` or `"degraded"`. -/
theorem C6_inspect_error_mapping :
    (∀ env name ns m, env.is_mounted = .ok m →
        env.get_machine
            = .error (.methodError "org.freedesktop.machine1.NoSuchMachine") →
        inspect_instance env name ns = .ok ⟨name, ns, m, false, false, none⟩)
  ∧ (∀ env name ns m e, env.is_mounted = .ok m →
        env.get_machine = .error e →
        e ≠ .methodError "org.freedesktop.machine1.NoSuchMachine" →
        inspect_instance env name ns = .error (.bus e))
  ∧ (∀ env name ns m p s b, env.is_mounted = .ok m →
        env.get_machine = .ok p → env.state = .ok s →
        is_booted env.cmdline = .ok b →
        inspect_instance env name ns
          = .ok ⟨name, ns, m, s == "running" || s == "degraded", true, some b⟩) := by
  refine ⟨?_, ?_, ?_⟩
  · intro env name ns m h1 h2
    simp [inspect_instance, h1, h2]
  · intro env name ns m e h1 h2 h3
    simp [inspect_instance, h1, h2, h3]
  · intro env name ns m p s b h1 h2 h3 h4
    simp [inspect_instance, h1, h2, h3, h4]

/-- Witness for C6: a NoSuchMachine reply yields the not-started record
while `mounted` is carried through from the mount table. -/
theorem C6_witness :
    inspect_instance
        ⟨.ok true,
          .error (.methodError "org.freedesktop.machine1.NoSuchMachine"),
          .error (.other "unused"), none⟩
        (strBytes "a") (strBytes "a-1")
      = .ok ⟨strBytes "a", strBytes "a-1", true, false, false, none⟩ :=
  C6_inspect_error_mapping.1
    ⟨.ok true, .error (.methodError "org.freedesktop.machine1.NoSuchMachine"),
      .error (.other "unused"), none⟩
    (strBytes "a") (strBytes "a-1") true rfl rfl

/-- C7 counterexample: a machine object can exist while the overlay is
not mounted: `inspect_instance` reads `mounted` independently from the
mount table and enforces no relation between the two, so it produces a
record with `started = true` and `mounted = false` — refuting "started
implies mounted". -/
theorem C7_counterexample :
    inspect_instance
        ⟨.ok false, .ok "/obj", .ok "running", some (strBytes "/sbin/init" ++ [0])⟩
        (strBytes "a") (strBytes "a-1")
      = .ok ⟨strBytes "a", strBytes "a-1", false, true, true, some true⟩
    ∧ (CielInstance.mk (strBytes "a") (strBytes "a-1") false true true
        (some true)).started = true
    ∧ (CielInstance.mk (strBytes "a") (strBytes "a-1") false true true
        (some true)).mounted = false :=
  ⟨by decide, rfl, rfl⟩

/-- C7 (amended): every status record produced by `inspect_instance`
satisfies `running → started` and has `booted` defined (`some`) exactly
when `started` is true; `started → mounted` is NOT among the
guarantees — `mounted` comes from an independent mount-table read (see
the counterexample). -/
theorem C7_status_invariants :
    ∀ env name ns inst, inspect_instance env name ns = .ok inst →
      (inst.running = true → inst.started = true)
        ∧ (inst.booted.isSome = true ↔ inst.started = true) := by
  intro env name ns inst h
  rcases env with ⟨im, gm, st, cl⟩
  rcases im with e | m
  · simp [inspect_instance] at h
  · rcases gm with e | p
    · by_cases he : e = .methodError "org.freedesktop.machine1.NoSuchMachine"
      · subst he
        simp only [inspect_instance, eq_self_iff_true, if_true,
          Except.ok.injEq] at h
        rw [← h]
        simp
      · simp [inspect_instance, he] at h
    · rcases st with e | s
      · simp [inspect_instance] at h
      · rcases hb : is_booted cl with e | b
        · simp [inspect_instance, hb] at h
        · simp only [inspect_instance, hb, Except.ok.injEq] at h
          rw [← h]
          simp

/-- Witness for C7: the guaranteed half of the invariants, at the
started-but-unmounted record of the counterexample environment. -/
theorem C7_witness :
    ((CielInstance.mk (strBytes "a") (strBytes "a-1") false true true
          (some true)).running = true →
        (CielInstance.mk (strBytes "a") (strBytes "a-1") false true true
          (some true)).started = true)
      ∧ ((CielInstance.mk (strBytes "a") (strBytes "a-1") false true true
            (some true)).booted.isSome = true
          ↔ (CielInstance.mk (strBytes "a") (strBytes "a-1") false true true
            (some true)).started = true) :=
  C7_status_invariants
    ⟨.ok false, .ok "/obj", .ok "running", some (strBytes "/sbin/init" ++ [0])⟩
    (strBytes "a") (strBytes "a-1")
    (CielInstance.mk (strBytes "a") (strBytes "a-1") false true true (some true))
    (by decide)

/-- `wait_for_poweroff` succeeds exactly when one of its polls finds
the machine gone. -/
theorem poweroff_poll_gone_iff (present : Nat → Bool) :
    ∀ fuel t0, (poweroff_poll present fuel t0).1 = true
      ↔ ∃ k, k < fuel ∧ present (t0 + k) = false
  | 0, t0 => by simp [poweroff_poll]
  | fuel + 1, t0 => by
    cases hp : present t0 with
    | true =>
      simp only [poweroff_poll, hp, if_true]
      rw [poweroff_poll_gone_iff present fuel (t0 + 1)]
      constructor
      · rintro ⟨k, hk, hkp⟩
        exact ⟨k + 1, by omega, by rwa [(by omega : t0 + (k + 1) = t0 + 1 + k)]⟩
      · rintro ⟨k, hk, hkp⟩
        cases k with
        | zero => rw [Nat.add_zero] at hkp; rw [hp] at hkp; cases hkp
        | succ k =>
          exact ⟨k, by omega, by rwa [(by omega : t0 + 1 + k = t0 + (k + 1))]⟩
    | false =>
      simp only [poweroff_poll, hp, if_false]
      exact iff_of_true rfl ⟨0, by omega, by simpa using hp⟩

/-- When the machine survives every poll, the wait fails having slept
exactly `fuel` seconds. -/
theorem poweroff_poll_fail_time (present : Nat → Bool) :
    ∀ fuel t0, (poweroff_poll present fuel t0).1 = false →
      (poweroff_poll present fuel t0).2 = t0 + fuel
  | 0, t0, _ => rfl
  | fuel + 1, t0, h => by
    cases hp : present t0 with
    | true =>
      simp only [poweroff_poll, hp, if_true] at h ⊢
      rw [poweroff_poll_fail_time present fuel (t0 + 1) h]
      omega
    | false => simp [poweroff_poll, hp] at h

/-- C8: `stop` follows the graceful-then-forceful protocol: the
non-blocking poweroff command is issued first; the manager is polled
for disappearance of the machine object once per second up to 10 times
(first conjunct); when the machine is gone the stop succeeds with no
kill issued; when the machine is still present — or the poweroff
command could not be issued — SIGKILL is sent to all processes in the
machine and `Terminate` is called, disappearance is re-polled up to 10
more times, and only when the machine survives the re-poll does `stop`
fail with the fatal termination-failed error (last conjunct: that error
implies the machine was present at all ten re-poll instants). -/
theorem C8_stop_protocol :
    (∀ present t0, (wait_for_poweroff present t0).1 = true
        ↔ ∃ k, k < 10 ∧ present (t0 + k) = false)
  ∧ (∀ env : StopEnv, env.poweroff_ok = true →
        (wait_for_poweroff env.machine_present 0).1 = true →
        terminate_container env = (.ok (), [.poweroffCmd]))
  ∧ (∀ env : StopEnv, env.poweroff_ok = true →
        (wait_for_poweroff env.machine_present 0).1 = false →
        env.kill_ok = true → env.terminate_ok = true →
        terminate_container env
          = (if (wait_for_poweroff env.machine_present 10).1 then .ok ()
              else .error .terminationFailed,
            [.poweroffCmd, .kill SIGKILL, .terminate, .terminate]))
  ∧ (∀ env : StopEnv, env.poweroff_ok = false →
        env.kill_ok = true → env.terminate_ok = true →
        terminate_container env
          = (if (wait_for_poweroff env.machine_present 0).1 then .ok ()
              else .error .terminationFailed,
            [.poweroffCmd, .kill SIGKILL, .terminate, .terminate]))
  ∧ (∀ env : StopEnv, (terminate_container env).1 = .error .terminationFailed →
        ∀ k, k < 10 →
          env.machine_present ((if env.poweroff_ok then 10 else 0) + k) = true) := by
  refine ⟨fun present t0 => poweroff_poll_gone_iff present 10 t0, ?_, ?_, ?_, ?_⟩
  · intro env hpo hgone
    simp [terminate_container, hpo, hgone]
  · intro env hpo hstay hk ht
    have ht1 : (wait_for_poweroff env.machine_present 0).2 = 10 :=
      poweroff_poll_fail_time env.machine_present 10 0 hstay
    simp only [terminate_container, hpo, if_true, hstay, Bool.false_eq_true,
      if_false, ht1, hk, ht]
    cases hw2 : (wait_for_poweroff env.machine_present 10).1 <;> simp [hw2]
  · intro env hpo hk ht
    simp only [terminate_container, hpo, Bool.false_eq_true, if_false, hk, ht,
      if_true]
    cases hw2 : (wait_for_poweroff env.machine_present 0).1 <;> simp [hw2]
  · intro env herr k hk
    by_contra habs
    have hpres : env.machine_present ((if env.poweroff_ok then 10 else 0) + k)
        = false := by
      cases hcb : env.machine_present ((if env.poweroff_ok then 10 else 0) + k)
      · rfl
      · exact absurd hcb habs
    cases hpo : env.poweroff_ok with
    | true =>
      rw [hpo] at hpres
      simp only [if_true] at hpres
      cases hg : (wait_for_poweroff env.machine_present 0).1 with
      | true => rw [terminate_container] at herr; simp [hpo, hg] at herr
      | false =>
        have ht1 : (wait_for_poweroff env.machine_present 0).2 = 10 :=
          poweroff_poll_fail_time env.machine_present 10 0 hg
        have hgone2 : (wait_for_poweroff env.machine_present 10).1 = true :=
          (poweroff_poll_gone_iff env.machine_present 10 10).mpr ⟨k, hk, hpres⟩
        rw [terminate_container] at herr
        simp only [hpo, if_true, hg, Bool.false_eq_true, if_false, ht1] at herr
        cases hko : env.kill_ok <;> rw [hko] at herr
        · simp at herr
        · cases hto : env.terminate_ok <;> rw [hto] at herr
          · simp at herr
          · simp [hgone2] at herr
    | false =>
      rw [hpo] at hpres
      simp only [Bool.false_eq_true, if_false] at hpres
      have hgone2 : (wait_for_poweroff env.machine_present 0).1 = true :=
        (poweroff_poll_gone_iff env.machine_present 10 0).mpr ⟨k, hk, hpres⟩
      rw [terminate_container] at herr
      simp only [hpo, Bool.false_eq_true, if_false] at herr
      cases hko : env.kill_ok <;> rw [hko] at herr
      · simp at herr
      · cases hto : env.terminate_ok <;> rw [hto] at herr
        · simp at herr
        · simp [hgone2] at herr

/-- Witness for C8: a machine that never disappears forces the full
forceful path and the fatal termination-failed outcome. -/
theorem C8_witness :
    terminate_container ⟨true, fun _ => true, true, true⟩
      = (if (wait_for_poweroff (fun _ => true) 10).1 then .ok ()
          else .error .terminationFailed,
        [.poweroffCmd, .kill SIGKILL, .terminate, .terminate]) :=
  C8_stop_protocol.2.2.1 ⟨true, fun _ => true, true, true⟩ rfl (by decide) rfl rfl

/-- C9: `exec` passes `-qt` (quiet, pseudoterminal-backed) and no
`--no-block` (attached) to the transient unit, sets `HOME=/root` in its
environment, propagates the stage-2 marker `ABSTAGE2=1` exactly when
the host environment defines `CIEL_STAGE2`, and returns the command's
exit code — 127 when the command was killed by a signal and its exit
status cannot be read. -/
theorem C9_exec_contract :
    ∀ (stage2 : Bool) (ns : String) (args : List String) (spawn_ok : Bool)
      (wait_code : Option Int),
      "--setenv=HOME=/root"
          ∈ (execute_container_command stage2 ns args spawn_ok wait_code).1
      ∧ "-qt" ∈ (execute_container_command stage2 ns args spawn_ok wait_code).1
      ∧ (ns ≠ "--setenv=ABSTAGE2=1" → "--setenv=ABSTAGE2=1" ∉ args →
          ("--setenv=ABSTAGE2=1"
              ∈ (execute_container_command stage2 ns args spawn_ok wait_code).1
            ↔ stage2 = true))
      ∧ (ns ≠ "--no-block" → "--no-block" ∉ args →
          "--no-block" ∉ (execute_container_command stage2 ns args spawn_ok wait_code).1)
      ∧ (spawn_ok = true → ∀ c : Int, wait_code = some c →
          (execute_container_command stage2 ns args spawn_ok wait_code).2 = .ok c)
      ∧ (spawn_ok = true → wait_code = none →
          (execute_container_command stage2 ns args spawn_ok wait_code).2 = .ok 127) := by
  intro stage2 ns args spawn_ok wait_code
  refine ⟨?_, ?_, ?_, ?_, ?_, ?_⟩
  · cases stage2 <;> simp [execute_container_command]
  · cases stage2 <;> simp [execute_container_command]
  · intro hns hargs
    cases stage2 <;>
      simp [execute_container_command, hargs, Ne.symm hns]
  · intro hns hargs
    cases stage2 <;>
      simp [execute_container_command, hargs, Ne.symm hns]
  · intro hs c hc
    simp [execute_container_command, hs, hc]
  · intro hs hc
    simp [execute_container_command, hs, hc]

/-- Witness for C9: with `CIEL_STAGE2` set, the marker is propagated;
with an exit status of 0 the call returns 0. -/
theorem C9_witness :
    ("--setenv=ABSTAGE2=1"
        ∈ (execute_container_command true "ciel" ["/bin/true"] true (some 0)).1
      ↔ true = true)
    ∧ (execute_container_command true "ciel" ["/bin/true"] true (some 0)).2 = .ok 0 :=
  ⟨(C9_exec_contract true "ciel" ["/bin/true"] true (some 0)).2.2.1
      (by decide) (by decide),
    (C9_exec_contract true "ciel" ["/bin/true"] true (some 0)).2.2.2.2.1
      rfl 0 rfl⟩

/-- A failing subdirectory fails the whole listing. -/
theorem list_instances_fails_of_entry_fails (cwd : Bytes) (envOf : Bytes → InspectEnv) :
    ∀ entries (e : DirEntry), e ∈ entries → entry_fails cwd envOf e →
      isErr (list_instances cwd envOf entries) = true
  | [], e, he, _ => absurd he (List.not_mem_nil e)
  | e0 :: rest, e, he, hf => by
    rcases List.mem_cons.mp he with rfl | hmem
    · obtain ⟨hdir, hrest⟩ := hf
      simp only [list_instances, hdir]
      rcases hns : get_container_ns_name cwd e.name with ce | ns
      · simp [isErr]
      · rw [hns] at hrest
        simp only at hrest
        rcases hins : inspect_instance (envOf e.name) e.name ns with ie | inst
        · simp [hins, isErr]
        · rw [hins] at hrest
          simp [isErr] at hrest
    · rcases hft : e0.file_type with u | b
      · simp [list_instances, hft, isErr]
      · cases b with
        | false =>
          simp only [list_instances, hft]
          exact list_instances_fails_of_entry_fails cwd envOf rest e hmem hf
        | true =>
          simp only [list_instances, hft]
          rcases hns : get_container_ns_name cwd e0.name with ce | ns
          · simp [isErr]
          · rcases hins : inspect_instance (envOf e0.name) e0.name ns with ie | inst
            · simp [hins, isErr]
            · have hrec := list_instances_fails_of_entry_fails cwd envOf rest e hmem hf
              rcases hlist : list_instances cwd envOf rest with err | l
              · simp [hins, hlist, isErr]
              · rw [hlist] at hrec
                simp [isErr] at hrec

/-- On success, every immediate subdirectory was derived and inspected
successfully and contributes a record; the output has exactly one
record per subdirectory entry. -/
theorem list_instances_ok_shape (cwd : Bytes) (envOf : Bytes → InspectEnv) :
    ∀ entries l, list_instances cwd envOf entries = .ok l →
      (∀ e ∈ entries, e.file_type = .ok true →
          ∃ ns inst, get_container_ns_name cwd e.name = .ok ns
            ∧ inspect_instance (envOf e.name) e.name ns = .ok inst ∧ inst ∈ l)
        ∧ l.length
            = (entries.filter (fun e => decide (e.file_type = .ok true))).length
  | [], l, h => by
    simp only [list_instances, Except.ok.injEq] at h
    subst h
    exact ⟨fun e he => absurd he (List.not_mem_nil e), by simp⟩
  | e0 :: rest, l, h => by
    rcases hft : e0.file_type with u | b
    · simp [list_instances, hft] at h
    · cases b with
      | false =>
        simp only [list_instances, hft] at h
        obtain ⟨hall, hlen⟩ := list_instances_ok_shape cwd envOf rest l h
        refine ⟨?_, ?_⟩
        · intro e he hedir
          rcases List.mem_cons.mp he with rfl | hmem
          · rw [hft] at hedir; cases hedir
          · exact hall e hmem hedir
        · rw [hlen, List.filter_cons]
          simp [hft]
      | true =>
        simp only [list_instances, hft] at h
        rcases hns : get_container_ns_name cwd e0.name with ce | ns <;>
            rw [hns] at h <;> simp only at h
        · cases h
        · rcases hins : inspect_instance (envOf e0.name) e0.name ns with ie | inst <;>
              rw [hins] at h <;> simp only at h
          · cases h
          · rcases hlist : list_instances cwd envOf rest with err | l2 <;>
                rw [hlist] at h <;> simp only at h
            · cases h
            · simp only [Except.ok.injEq] at h
              subst h
              obtain ⟨hall, hlen⟩ := list_instances_ok_shape cwd envOf rest l2 hlist
              refine ⟨?_, ?_⟩
              · intro e he hedir
                rcases List.mem_cons.mp he with rfl | hmem
                · exact ⟨ns, inst, hns, hins, by simp⟩
                · obtain ⟨ns2, inst2, h1, h2, h3⟩ := hall e hmem hedir
                  exact ⟨ns2, inst2, h1, h2, by simp [h3]⟩
              · rw [List.filter_cons]
                simp [hft, hlen]

/-- C10: `list_instances` considers only the immediate subdirectory
entries of the instance directory, and it is all-or-nothing: if
namespace derivation or inspection fails for any single subdirectory,
the whole listing returns an error and no partial list (first
conjunct); on success every subdirectory entry was processed
successfully and contributes exactly one record (second conjunct). -/
theorem C10_list_all_or_nothing :
    (∀ cwd envOf entries (e : DirEntry), e ∈ entries →
        entry_fails cwd envOf e →
        isErr (list_instances cwd envOf entries) = true)
  ∧ (∀ cwd envOf entries l, list_instances cwd envOf entries = .ok l →
        (∀ e ∈ entries, e.file_type = .ok true →
            ∃ ns inst, get_container_ns_name cwd e.name = .ok ns
              ∧ inspect_instance (envOf e.name) e.name ns = .ok inst ∧ inst ∈ l)
          ∧ l.length
              = (entries.filter (fun e => decide (e.file_type = .ok true))).length) :=
  ⟨fun cwd envOf entries e => list_instances_fails_of_entry_fails cwd envOf entries e,
    fun cwd envOf entries l => list_instances_ok_shape cwd envOf entries l⟩

/-- Witness for C10: one subdirectory whose inspection fails (an
I/O error reading the mount table) poisons the whole listing. -/
theorem C10_witness :
    isErr (list_instances (strBytes "/ws")
        (fun _ => ⟨.error (), .ok "p", .ok "running", none⟩)
        [⟨strBytes "a", .ok true⟩]) = true :=
  C10_list_all_or_nothing.1 (strBytes "/ws")
    (fun _ => ⟨.error (), .ok "p", .ok "running", none⟩)
    [⟨strBytes "a", .ok true⟩] ⟨strBytes "a", .ok true⟩
    (by simp) ⟨rfl, rfl⟩

end Theorems

end Ciel
